import Mathlib

/-
Shallow embedding of the job-orchestration core of this repository
(scripts/bakta_api_runner.py): the Job Record data model, the pure
locus-tag derivation, the status-query gateway call, the Job Submission
Procedure, the Job Monitoring Procedure's poll loop, and the Report
Generator's partition of the final record collection.

Modelling conventions:
- Python `Optional[str]` fields become `Option String`; Python `None` is
  `none`.  Python truthiness of an optional string (`if not job_id`) is
  `strTruthy`: false exactly for `None` and the empty string.
- Python dict entries read with `d.get(key, default)` are modelled with an
  outer `Option` marking key presence, so the `.get` default applies only
  when the key is absent, exactly as in Python.
- Timestamps (`datetime.now()`) are abstract `Nat` instants supplied by
  the environment.
- Network effects (HTTP responses, upload/download outcomes) are supplied
  as oracle fields of an environment record; each oracle's shape follows
  the corresponding response handling in the source.
- All strings are ASCII in the inputs of interest, so `String.toUpper`,
  `Char.isAlphanum` and `String.length` coincide with Python `str.upper`,
  `str.isalnum` and `len`.
-/

/-- Job Record: the dataclass `BaktaJob` tracking one unit of work
(identity, credentials, lifecycle state, timestamps, error detail,
output location), with the source's field defaults. -/
structure BaktaJob where
  file_id : String
  fasta_path : String
  job_id : Option String := none
  secret : Option String := none
  status : String := "pending"
  submit_time : Option Nat := none
  complete_time : Option Nat := none
  error_message : Option String := none
  result_path : Option String := none
  retry_count : Nat := 0
deriving DecidableEq

/-- Python truthiness of an optional string: `None` and `""` are falsy. -/
def strTruthy : Option String → Bool
  | none => false
  | some s => !(s == "")

/-- Python `str.upper` on an ASCII string, written at the
character-list level so that it evaluates by kernel reduction. -/
def strUpper (s : String) : String :=
  String.mk (s.data.map Char.toUpper)

/-- Python slicing `s[:n]`, written at the character-list level so that
it evaluates by kernel reduction. -/
def strTake (s : String) (n : Nat) : String :=
  String.mk (s.data.take n)

/-- Python `len` of a string: its number of characters. -/
def strLen (s : String) : Nat :=
  s.data.length

/-- The alphanumeric-filtered, upper-cased form of a file identifier used
by the locus-tag fallback: the join of `c.upper()` over the characters of
`file_id` satisfying `c.isalnum()`. -/
def cleanFileId (file_id : String) : String :=
  String.mk ((file_id.data.filter Char.isAlphanum).map Char.toUpper)

/-- BaktaAPIRunner._generate_locus_tag: derives a locus-tag prefix from
genus and species when both are truthy, and otherwise from the file
identifier, with literal fallback "BAKTA". -/
def _generate_locus_tag (genus species file_id : String) : String :=
  if genus ≠ "" ∧ species ≠ "" then
    if 2 ≤ strLen genus ∧ 3 ≤ strLen species then
      strUpper (strTake genus 2) ++ strUpper (strTake species 3)
    else
      strTake (strUpper genus ++ strUpper species) 5
  else
    let clean_file_id := strTake (cleanFileId file_id) 5
    if clean_file_id ≠ "" then clean_file_id else "BAKTA"

/-- The locus identifier formed in BaktaAPIRunner.submit_job:
the tag, an underscore, and the first eight characters of the remote
job identifier. -/
def mk_locus (locus_tag job_id : String) : String :=
  locus_tag ++ "_" ++ strTake job_id 8

/-- One entry of the `jobs` array of a `/job/list` response, as read by
BaktaAPIClient.get_job_status.  `jobStatus` is `none` when the field is
absent (the source then substitutes "UNKNOWN"; a JSON null would instead
stay `None` in Python, but both values fall into the same
unrecognised-status branch of the monitor loop, so the model merges
them).  `error` is the value of `job_status.get('error', None)`. -/
structure RemoteJobEntry where
  jobStatus : Option String
  error : Option String
deriving DecidableEq

/-- A `/job/list` transport response: whether the HTTP status was 200,
and the parsed `jobs` array. -/
structure ListResponse where
  ok : Bool
  jobs : List RemoteJobEntry

/-- The dict built by BaktaAPIClient.get_job_status on success.  Each
field carries an outer `Option` marking key presence, so that the
`.get(key, default)` reads in monitor_job behave exactly as in Python.
The `result` entry of the source dict is never read by monitor_job and
is omitted.  The `error` entry's inner `Option` is Python `None` versus
a string. -/
structure StatusData where
  statusEntry : Option String
  errorEntry : Option (Option String)
deriving DecidableEq

/-- The read `status_data.get('status', 'unknown')` in monitor_job. -/
def statusGetStatus (sd : StatusData) : String :=
  sd.statusEntry.getD "unknown"

/-- The read `status_data.get('error', 'Unknown error')` in monitor_job.
The default fires only when the key is absent from the dict. -/
def statusGetError (sd : StatusData) : Option String :=
  sd.errorEntry.getD (some "Unknown error")

/-- BaktaAPIClient.get_job_status: a transport exception (`none` input)
or a non-200 response or an empty `jobs` array yields `None`; otherwise
the three-key dict is built from `jobs[0]`, always including both the
`status` key (with the "UNKNOWN" default for a missing `jobStatus`) and
the `error` key (value possibly `None`). -/
def get_job_status (resp : Option ListResponse) : Option StatusData :=
  match resp with
  | none => none
  | some r =>
    if r.ok then
      match r.jobs with
      | [] => none
      | j :: _ =>
        some { statusEntry := some (j.jobStatus.getD "UNKNOWN"),
               errorEntry := some j.error }
    else none

/-- monitor_job's wall-clock budget in seconds (`max_wait_time`). -/
def max_wait_time : Nat := 3600

/-- monitor_job's polling interval in seconds (`check_interval`). -/
def check_interval : Nat := 30

/-- The results directory path used for downloaded artifacts. -/
def results_dir : String := "bakta_results"

/-- The fixed download priority order of monitor_job:
uncompressed JSON first, compressed JSONGZ second. -/
def download_candidates : List (String × String) :=
  [("JSON", ".json"), ("JSONGZ", ".json.gz")]

/-- The remote states monitor_job treats as in progress. -/
def in_progress_states : List String :=
  ["PENDING", "SUBMITTED", "RUNNING", "INIT", "UPLOADING"]

/-- Environment of one monitoring run: the transport outcome of the nth
status poll, the single `get_job_results` outcome consulted after a
SUCCESSFUL status (`none` for a failed call, `some none` for a response
without a usable `ResultFiles` entry, `some (some files)` for the
`ResultFiles` mapping of result kind to URL), the per-URL
`download_result` outcome, and the clock instant used for
`datetime.now()` at completion. -/
structure MonitorEnv where
  statusAt : Nat → Option ListResponse
  resultData : Option (Option (List (String × String)))
  downloadOk : String → Bool
  now : Nat

/-- The nth status query of a monitoring run, as monitor_job sees it:
the gateway call applied to the nth transport outcome. -/
def pollStatus (env : MonitorEnv) (n : Nat) : Option StatusData :=
  get_job_status (env.statusAt n)

/-- The download loop of monitor_job over the candidate list: for each
kind present in the result files, attempt the download; the first
success records `result_path` and state `completed` and stops. -/
def attemptDownloads (downloadOk : String → Bool)
    (result_files : List (String × String)) (job : BaktaJob) :
    List (String × String) → BaktaJob × Bool
  | [] => (job, false)
  | (file_type, ext) :: rest =>
    match result_files.lookup file_type with
    | none => attemptDownloads downloadOk result_files job rest
    | some download_url =>
      if downloadOk download_url then
        ({ job with
            result_path := some (results_dir ++ "/" ++ job.file_id
              ++ "_bakta_results" ++ ext),
            status := "completed" }, true)
      else attemptDownloads downloadOk result_files job rest

/-- Whether some candidate kind is present in the result files with a
succeeding download: the condition under which the download loop sets
`downloaded = True`. -/
def anyCandidateDownloads (downloadOk : String → Bool)
    (result_files : List (String × String)) :
    List (String × String) → Bool
  | [] => false
  | (file_type, _) :: rest =>
    match result_files.lookup file_type with
    | none => anyCandidateDownloads downloadOk result_files rest
    | some download_url =>
      downloadOk download_url
        || anyCandidateDownloads downloadOk result_files rest

/-- The while-loop of BaktaAPIRunner.monitor_job.  The loop variable
`elapsed` and the guard `elapsed < max_wait_time` are the source's; the
extra `fuel` argument only makes the recursion structural, and
monitor_job passes one more unit of fuel than the guard can consume, so
the fuel-exhaustion branch never decides an exit (its value is chosen
equal to the guard-exit value).  Each pass queries the status; a missing
status dict returns failure at once; SUCCESSFUL fetches the result data
and runs the download loop, with `download_failed` or `no_results` on
the failing outcomes; ERROR records the remote detail and fails;
recognised in-progress states and unknown states alike sleep one
interval and re-poll. -/
def monitorLoop (env : MonitorEnv) :
    Nat → Nat → Nat → BaktaJob → BaktaJob × Bool
  | 0, _, _, job => ({ job with status := "timeout" }, false)
  | fuel + 1, pollIdx, elapsed, job =>
    if elapsed < max_wait_time then
      match pollStatus env pollIdx with
      | none => (job, false)
      | some status_data =>
        let current_status := statusGetStatus status_data
        if current_status = "SUCCESSFUL" then
          let job1 := { job with
            status := "completed", complete_time := some env.now }
          match env.resultData with
          | some (some result_files) =>
            let dl := attemptDownloads env.downloadOk result_files job1
              download_candidates
            if dl.2 then (dl.1, true)
            else ({ dl.1 with status := "download_failed" }, false)
          | _ => ({ job1 with status := "no_results" }, false)
        else if current_status = "ERROR" then
          ({ job with
              status := "failed",
              error_message := statusGetError status_data }, false)
        else if in_progress_states.contains current_status then
          monitorLoop env fuel (pollIdx + 1) (elapsed + check_interval) job
        else
          monitorLoop env fuel (pollIdx + 1) (elapsed + check_interval) job
    else ({ job with status := "timeout" }, false)

/-- BaktaAPIRunner.monitor_job: a record whose remote job identifier or
secret is falsy returns failure at once; otherwise the poll loop runs
under the wall-clock budget. -/
def monitor_job (env : MonitorEnv) (job : BaktaJob) : BaktaJob × Bool :=
  if !strTruthy job.job_id || !strTruthy job.secret then (job, false)
  else monitorLoop env (max_wait_time / check_interval + 1) 0 0 job

/-- A `/job/init` transport response as read by BaktaAPIClient.init_job:
whether the HTTP status was 200, the `job.jobID` and `job.secret` fields
(each absent when the response omits them), and the three upload-link
fields. -/
structure InitResponse where
  ok : Bool
  jobID : Option String
  secret : Option String
  uploadLinkFasta : Option String
  uploadLinkProdigal : Option String
  uploadLinkReplicons : Option String

/-- The upload-link dict built by init_job: all three keys are always
present, each value possibly `None`. -/
structure UploadLinks where
  fasta : Option String
  prodigal : Option String
  replicons : Option String

/-- BaktaAPIClient.init_job: a transport exception (`none` input) or a
non-200 response yields the triple `(None, None, None)`; a 200 response
yields the (possibly `None`) job identifier and secret and the
upload-link dict. -/
def init_job (resp : Option InitResponse) :
    Option String × Option String × Option UploadLinks :=
  match resp with
  | none => (none, none, none)
  | some r =>
    if r.ok then
      (r.jobID, r.secret,
        some { fasta := r.uploadLinkFasta,
               prodigal := r.uploadLinkProdigal,
               replicons := r.uploadLinkReplicons })
    else (none, none, none)

/-- An Input Parameter Entry as read by submit_job.  `fasta_file` is
read with a bracket lookup (a missing key raises KeyError); the
taxonomic fields are read with `.get` defaults, so each carries an
outer `Option` marking key presence. -/
structure ParamsDict where
  fasta_file : Option String
  genus : Option String := none
  species : Option String := none
  strain : Option String := none
  circular : Option Bool := none

/-- The arguments submit_job passes to the gateway's start call. -/
structure StartArgs where
  genus : String
  species : String
  strain : String
  complete_genome : Bool
  locus_tag : String
  locus : String

/-- Environment of one submission attempt: the `/job/init` transport
outcome, the upload outcome per (URL, local path) pair, the start-call
outcome per argument set, and the clock instant used for
`datetime.now()` at submission.  The best-effort replicon upload of the
source mutates no Job Record field (its failures are only logged), so it
needs no oracle. -/
structure SubmitEnv where
  initResponse : Option InitResponse
  uploadResult : Option String → String → Bool
  startResult : StartArgs → Bool
  now : Nat

/-- BaktaAPIRunner.submit_job.  The record is created from
`params['fasta_file']` before the try block, so a parameter entry
missing that key raises to the caller (`Except.error`).  Inside the try,
each hard step failure returns the record in state `failed` with its
message; the upload-link subscript on a `None` link set would raise and
be caught by the enclosing handler (that branch is unreachable, since a
truthy job identifier only arises from a 200 response, which always
builds the link dict); on all steps succeeding the state becomes
`running`.  `submit_time` is assigned immediately after a successful
initialization, before the upload step. -/
def submit_job (env : SubmitEnv) (file_id : String) (params : ParamsDict) :
    Except String BaktaJob :=
  match params.fasta_file with
  | none => Except.error "KeyError: fasta_file"
  | some fastaPath =>
    let job : BaktaJob := { file_id := file_id, fasta_path := fastaPath }
    match init_job env.initResponse with
    | (job_id, secret, upload_links) =>
      if !strTruthy job_id then
        Except.ok { job with
          status := "failed",
          error_message := some "Job initialization failed" }
      else
        let job := { job with
          job_id := job_id, secret := secret,
          submit_time := some env.now }
        match upload_links with
        | none =>
          Except.ok { job with
            status := "failed",
            error_message := some "NoneType object is not subscriptable" }
        | some links =>
          if !(env.uploadResult links.fasta job.fasta_path) then
            Except.ok { job with
              status := "failed",
              error_message := some "FASTA upload failed" }
          else
            let genus := params.genus.getD ""
            let species := params.species.getD ""
            let strain := params.strain.getD ""
            let complete_genome := params.circular.getD false
            let locus_tag := _generate_locus_tag genus species file_id
            let locus := mk_locus locus_tag (job_id.getD "")
            if !(env.startResult
                { genus := genus, species := species, strain := strain,
                  complete_genome := complete_genome,
                  locus_tag := locus_tag, locus := locus }) then
              Except.ok { job with
                status := "failed",
                error_message := some "Job start failed" }
            else
              Except.ok { job with status := "running" }

/-- The failure-bucket states of generate_final_report. -/
def failed_states : List String := ["failed", "timeout", "download_failed"]

/-- The successful bucket of BaktaAPIRunner.generate_final_report:
records whose state is `completed`. -/
def successful_jobs (jobs : List BaktaJob) : List BaktaJob :=
  jobs.filter (fun j => j.status == "completed")

/-- The failed bucket of generate_final_report: records whose state is
in `["failed", "timeout", "download_failed"]`. -/
def failed_jobs (jobs : List BaktaJob) : List BaktaJob :=
  jobs.filter (fun j => failed_states.contains j.status)

/-- The per-successful-job duration of generate_final_report:
`(complete_time - submit_time).total_seconds() / 60`, in minutes; the
subtraction on a missing timestamp would raise in Python, modelled as
`none`. -/
def reportDurationMinutes (j : BaktaJob) : Option ℚ :=
  match j.complete_time, j.submit_time with
  | some c, some s => some (((c : ℚ) - (s : ℚ)) / 60)
  | _, _ => none

/-- The terminal Job Record states named by the specification. -/
def terminal_states : List String :=
  ["completed", "failed", "timeout", "download_failed", "no_results"]

/-- A status poll that reports neither SUCCESSFUL nor ERROR: the query
succeeded and its state falls into the in-progress branch or the
unknown-state branch of the monitor loop. -/
def nonTerminalPoll (env : MonitorEnv) (n : Nat) : Prop :=
  ∃ sd, pollStatus env n = some sd ∧
    statusGetStatus sd ≠ "SUCCESSFUL" ∧ statusGetStatus sd ≠ "ERROR"

/-- The record states in which `complete_time` carries a value after
monitoring: exactly the outcomes of the SUCCESSFUL remote branch. -/
def complete_time_states : List String :=
  ["completed", "download_failed", "no_results"]

/-
Concrete instances used by counterexamples and witnesses.
-/

/-- A Job Record as it enters monitoring after a successful submission:
identifier and secret set, state `running`, submission timestamp set. -/
def jobRunning : BaktaJob :=
  { file_id := "f1", fasta_path := "f1.fasta",
    job_id := some "jid12345", secret := some "sec1",
    status := "running", submit_time := some 100 }

/-- A monitoring environment whose every status poll fails at the
transport level. -/
def envTransportFail : MonitorEnv :=
  { statusAt := fun _ => none, resultData := none,
    downloadOk := fun _ => false, now := 500 }

/-- A monitoring environment whose first poll reports remote state ERROR
with detail "boom". -/
def envRemoteError : MonitorEnv :=
  { statusAt := fun _ =>
      some { ok := true,
             jobs := [{ jobStatus := some "ERROR", error := some "boom" }] },
    resultData := none, downloadOk := fun _ => false, now := 500 }

/-- A monitoring environment whose first poll reports remote state ERROR
with no error detail (the remote omits the field, so the gateway stores
Python None for it). -/
def envRemoteErrorNoDetail : MonitorEnv :=
  { statusAt := fun _ =>
      some { ok := true,
             jobs := [{ jobStatus := some "ERROR", error := none }] },
    resultData := none, downloadOk := fun _ => false, now := 500 }

/-- A monitoring environment whose every poll reports remote state
RUNNING. -/
def envForeverRunning : MonitorEnv :=
  { statusAt := fun _ =>
      some { ok := true,
             jobs := [{ jobStatus := some "RUNNING", error := none }] },
    resultData := none, downloadOk := fun _ => false, now := 500 }

/-- A monitoring environment reporting SUCCESSFUL whose result manifest
is present but lists only a kind matching no download candidate. -/
def envSuccessNoMatchingKind : MonitorEnv :=
  { statusAt := fun _ =>
      some { ok := true,
             jobs := [{ jobStatus := some "SUCCESSFUL", error := none }] },
    resultData := some (some [("GFF3", "urlGff")]),
    downloadOk := fun _ => true, now := 500 }

/-- A monitoring environment reporting SUCCESSFUL whose result manifest
lists only the compressed JSONGZ kind, with downloads succeeding. -/
def envSuccessJsonGz : MonitorEnv :=
  { statusAt := fun _ =>
      some { ok := true,
             jobs := [{ jobStatus := some "SUCCESSFUL", error := none }] },
    resultData := some (some [("JSONGZ", "urlGz")]),
    downloadOk := fun _ => true, now := 500 }

/-- A submission environment where every remote step succeeds. -/
def envSubmitOk : SubmitEnv :=
  { initResponse := some
      { ok := true, jobID := some "jid12345", secret := some "sec1",
        uploadLinkFasta := some "upFasta",
        uploadLinkProdigal := some "upProdigal",
        uploadLinkReplicons := some "upReplicons" },
    uploadResult := fun _ _ => true,
    startResult := fun _ => true, now := 100 }

/-- A submission environment where initialization succeeds but the FASTA
upload fails. -/
def envSubmitUploadFail : SubmitEnv :=
  { initResponse := some
      { ok := true, jobID := some "jid12345", secret := some "sec1",
        uploadLinkFasta := some "upFasta",
        uploadLinkProdigal := some "upProdigal",
        uploadLinkReplicons := some "upReplicons" },
    uploadResult := fun _ _ => false,
    startResult := fun _ => true, now := 100 }

/-- A well-formed parameter entry. -/
def paramsGood : ParamsDict :=
  { fasta_file := some "f1.fasta", genus := some "Escherichia",
    species := some "coli", strain := some "K12", circular := some false }

/-- A malformed parameter entry missing the `fasta_file` key. -/
def paramsNoFasta : ParamsDict :=
  { fasta_file := none }

/-- The record produced by a submission whose initialization succeeded
and whose FASTA upload then failed. -/
def jobUploadFailed : BaktaJob :=
  { file_id := "f1", fasta_path := "f1.fasta", job_id := some "jid12345",
    secret := some "sec1", status := "failed", submit_time := some 100,
    error_message := some "FASTA upload failed" }

/-- A Job Record that finished in state `completed` five minutes after
submission. -/
def jobCompletedRec : BaktaJob :=
  { file_id := "f2", fasta_path := "f2.fasta", job_id := some "jid2",
    secret := some "sec2", status := "completed", submit_time := some 60,
    complete_time := some 360,
    result_path := some "bakta_results/f2_bakta_results.json" }

/-- A Job Record that finished in state `no_results`. -/
def jobNoResultsRec : BaktaJob :=
  { file_id := "f3", fasta_path := "f3.fasta", job_id := some "jid3",
    secret := some "sec3", status := "no_results", submit_time := some 60,
    complete_time := some 400 }

/-- A Job Record with no remote job identifier or secret assigned. -/
def jobNoCreds : BaktaJob :=
  { file_id := "f4", fasta_path := "f4.fasta" }

/-
Helper lemmas about the download loop and the monitor loop.
-/

/-- A download-loop pass that reports no success leaves the record
unchanged. -/
theorem attemptDownloads_of_false (dl : String → Bool)
    (files : List (String × String)) (job : BaktaJob) :
    ∀ cands, (attemptDownloads dl files job cands).2 = false →
      (attemptDownloads dl files job cands).1 = job := by
  intro cands
  induction cands with
  | nil => intro _; rfl
  | cons c rest ih =>
    obtain ⟨ft, ext⟩ := c
    intro h
    cases hl : files.lookup ft with
    | none =>
      simp only [attemptDownloads, hl] at h ⊢
      exact ih h
    | some url =>
      by_cases hd : dl url = true
      · simp only [attemptDownloads, hl, hd, if_true] at h
        exact absurd h (by decide)
      · simp only [attemptDownloads, hl, hd, if_false] at h ⊢
        exact ih h

/-- A download-loop pass that reports success has set `result_path` and
state `completed` on the record and changed nothing else. -/
theorem attemptDownloads_of_true (dl : String → Bool)
    (files : List (String × String)) (job : BaktaJob) :
    ∀ cands, (attemptDownloads dl files job cands).2 = true →
      ∃ p, (attemptDownloads dl files job cands).1 =
        { job with status := "completed", result_path := some p } := by
  intro cands
  induction cands with
  | nil => intro h; exact absurd h (by simp [attemptDownloads])
  | cons c rest ih =>
    obtain ⟨ft, ext⟩ := c
    intro h
    cases hl : files.lookup ft with
    | none =>
      simp only [attemptDownloads, hl] at h ⊢
      exact ih h
    | some url =>
      by_cases hd : dl url = true
      · refine ⟨results_dir ++ "/" ++ job.file_id ++ "_bakta_results" ++ ext, ?_⟩
        simp only [attemptDownloads, hl, hd, if_true]
      · simp only [attemptDownloads, hl, hd, if_false] at h ⊢
        exact ih h

/-- The download loop succeeds exactly when some candidate kind is
present in the result files with a succeeding download. -/
theorem attemptDownloads_snd (dl : String → Bool)
    (files : List (String × String)) (job : BaktaJob) :
    ∀ cands, (attemptDownloads dl files job cands).2 =
      anyCandidateDownloads dl files cands := by
  intro cands
  induction cands with
  | nil => rfl
  | cons c rest ih =>
    obtain ⟨ft, ext⟩ := c
    cases hl : files.lookup ft with
    | none =>
      simp only [attemptDownloads, anyCandidateDownloads, hl]
      exact ih
    | some url =>
      by_cases hd : dl url = true
      · simp [attemptDownloads, anyCandidateDownloads, hl, hd]
      · simp only [attemptDownloads, anyCandidateDownloads, hl,
          Bool.not_eq_true] at hd ⊢
        simp [hd, ih]

/-- Case analysis of one monitor-loop run: it exits unchanged on a
transport failure, or in state `timeout`, or in state `failed` with some
recorded error detail, or through the SUCCESSFUL branch in one of the
states `completed` (with a result path, returning success),
`download_failed`, or `no_results` (each carrying the completion
instant). -/
theorem monitorLoop_result_cases (env : MonitorEnv) :
    ∀ fuel pollIdx elapsed job,
      monitorLoop env fuel pollIdx elapsed job = (job, false) ∨
      monitorLoop env fuel pollIdx elapsed job =
        ({ job with status := "timeout" }, false) ∨
      (∃ e, monitorLoop env fuel pollIdx elapsed job =
        ({ job with status := "failed", error_message := e }, false)) ∨
      (∃ p, monitorLoop env fuel pollIdx elapsed job =
        ({ job with
            status := "completed"
            complete_time := some env.now
            result_path := some p }, true)) ∨
      monitorLoop env fuel pollIdx elapsed job =
        ({ job with
            status := "download_failed"
            complete_time := some env.now }, false) ∨
      monitorLoop env fuel pollIdx elapsed job =
        ({ job with
            status := "no_results"
            complete_time := some env.now }, false) := by
  intro fuel
  induction fuel with
  | zero =>
    intro pollIdx elapsed job
    right; left; rfl
  | succ f ih =>
    intro pollIdx elapsed job
    by_cases he : elapsed < max_wait_time
    · cases hps : pollStatus env pollIdx with
      | none =>
        left
        simp [monitorLoop, he, hps]
      | some sd =>
        by_cases hsS : statusGetStatus sd = "SUCCESSFUL"
        · cases hrd : env.resultData with
          | none =>
            right; right; right; right; right
            simp [monitorLoop, he, hps, hsS, hrd]
          | some inner =>
            cases inner with
            | none =>
              right; right; right; right; right
              simp [monitorLoop, he, hps, hsS, hrd]
            | some files =>
              by_cases hdl : (attemptDownloads env.downloadOk files
                  { job with
                    status := "completed"
                    complete_time := some env.now }
                  download_candidates).2 = true
              · obtain ⟨p, hp⟩ := attemptDownloads_of_true _ _ _ _ hdl
                right; right; right; left
                refine ⟨p, ?_⟩
                simp [monitorLoop, he, hps, hsS, hrd, hdl, hp]
              · have h2 : (attemptDownloads env.downloadOk files
                    { job with
                      status := "completed"
                      complete_time := some env.now }
                    download_candidates).2 = false := by
                  simpa using hdl
                have h1 := attemptDownloads_of_false _ _ _ _ h2
                right; right; right; right; left
                simp [monitorLoop, he, hps, hsS, hrd, h2, h1]
        · by_cases hsE : statusGetStatus sd = "ERROR"
          · right; right; left
            refine ⟨statusGetError sd, ?_⟩
            simp [monitorLoop, he, hps, hsS, hsE]
          · have heq : monitorLoop env (f + 1) pollIdx elapsed job =
                monitorLoop env f (pollIdx + 1) (elapsed + check_interval)
                  job := by
              simp [monitorLoop, he, hps, hsS, hsE, ite_self]
            rw [heq]
            exact ih (pollIdx + 1) (elapsed + check_interval) job
    · right; left
      simp [monitorLoop, he]

/-- A monitor loop whose every in-budget poll reports neither SUCCESSFUL
nor ERROR runs to the timeout exit; only polls that fit under the
wall-clock guard are consulted. -/
theorem monitorLoop_timeout (env : MonitorEnv) :
    ∀ fuel pollIdx elapsed job,
      (∀ k, k < fuel → elapsed + k * check_interval < max_wait_time →
        nonTerminalPoll env (pollIdx + k)) →
      monitorLoop env fuel pollIdx elapsed job =
        ({ job with status := "timeout" }, false) := by
  intro fuel
  induction fuel with
  | zero => intro _ _ _ _; rfl
  | succ f ih =>
    intro pollIdx elapsed job hprog
    by_cases he : elapsed < max_wait_time
    · obtain ⟨sd, hps, hsS, hsE⟩ :=
        hprog 0 (Nat.succ_pos f) (by simpa using he)
      have heq : monitorLoop env (f + 1) pollIdx elapsed job =
          monitorLoop env f (pollIdx + 1) (elapsed + check_interval)
            job := by
        simp only [Nat.add_zero] at hps
        simp [monitorLoop, he, hps, hsS, hsE, ite_self]
      rw [heq]
      refine ih (pollIdx + 1) (elapsed + check_interval) job ?_
      intro k hk hlt
      have := hprog (k + 1) (Nat.succ_lt_succ hk) (by
        rw [Nat.add_mul, Nat.one_mul]
        omega)
      simpa [Nat.add_assoc, Nat.add_comm, Nat.add_left_comm] using this
    · simp [monitorLoop, he]

/-- Skipping a run of in-budget, non-terminal polls: the monitor loop
advances past them, consuming one unit of fuel and one polling interval
per poll, without touching the record. -/
theorem monitorLoop_skip_nonterminal (env : MonitorEnv) (job : BaktaJob) :
    ∀ n fuel pollIdx elapsed,
      (∀ m, m < n → nonTerminalPoll env (pollIdx + m)) →
      (∀ m, m < n → elapsed + m * check_interval < max_wait_time) →
      monitorLoop env (fuel + n) pollIdx elapsed job =
        monitorLoop env fuel (pollIdx + n)
          (elapsed + n * check_interval) job := by
  intro n
  induction n with
  | zero =>
    intro fuel pollIdx elapsed _ _
    simp
  | succ k ih =>
    intro fuel pollIdx elapsed h1 h2
    obtain ⟨sd, hps, hsS, hsE⟩ := h1 0 (Nat.succ_pos k)
    rw [Nat.add_zero] at hps
    have he : elapsed < max_wait_time := by
      have := h2 0 (Nat.succ_pos k)
      simpa using this
    have hstep : monitorLoop env (fuel + k + 1) pollIdx elapsed job =
        monitorLoop env (fuel + k) (pollIdx + 1)
          (elapsed + check_interval) job := by
      simp [monitorLoop, he, hps, hsS, hsE, ite_self]
    have hcast : fuel + (k + 1) = fuel + k + 1 := rfl
    rw [hcast, hstep]
    have h1a : ∀ m, m < k → nonTerminalPoll env (pollIdx + 1 + m) := by
      intro m hm
      have := h1 (m + 1) (Nat.succ_lt_succ hm)
      simpa [Nat.add_assoc, Nat.add_comm, Nat.add_left_comm] using this
    have h2a : ∀ m, m < k →
        elapsed + check_interval + m * check_interval < max_wait_time := by
      intro m hm
      have := h2 (m + 1) (Nat.succ_lt_succ hm)
      rw [Nat.add_mul, Nat.one_mul] at this
      omega
    rw [ih fuel (pollIdx + 1) (elapsed + check_interval) h1a h2a]
    have e1 : pollIdx + 1 + k = pollIdx + (k + 1) := by omega
    have e2 : elapsed + check_interval + k * check_interval =
        elapsed + (k + 1) * check_interval := by
      rw [Nat.add_mul, Nat.one_mul]
      omega
    rw [e1, e2]

/-- An in-budget poll whose status query fails exits the loop at once,
returning failure with the record unchanged. -/
theorem monitorLoop_step_none (env : MonitorEnv) (job : BaktaJob)
    (fuel pollIdx elapsed : Nat) (he : elapsed < max_wait_time)
    (hp : pollStatus env pollIdx = none) :
    monitorLoop env (fuel + 1) pollIdx elapsed job = (job, false) := by
  simp [monitorLoop, he, hp]

/-- An in-budget poll answering ERROR exits the loop at once with the
record in state `failed` carrying the remote detail, returning
failure. -/
theorem monitorLoop_step_error (env : MonitorEnv) (job : BaktaJob)
    (fuel pollIdx elapsed : Nat) (sd : StatusData)
    (he : elapsed < max_wait_time) (hp : pollStatus env pollIdx = some sd)
    (hsE : statusGetStatus sd = "ERROR") :
    monitorLoop env (fuel + 1) pollIdx elapsed job =
      ({ job with
          status := "failed"
          error_message := statusGetError sd }, false) := by
  have hsS : statusGetStatus sd ≠ "SUCCESSFUL" := by
    rw [hsE]
    decide
  simp [monitorLoop, he, hp, hsS, hsE]

/-- An in-budget poll answering SUCCESSFUL exits the loop at once with
the record in one of the states `completed`, `download_failed`,
`no_results`, and with the completion instant recorded. -/
theorem monitorLoop_step_successful (env : MonitorEnv) (job : BaktaJob)
    (fuel pollIdx elapsed : Nat) (sd : StatusData)
    (he : elapsed < max_wait_time) (hp : pollStatus env pollIdx = some sd)
    (hsS : statusGetStatus sd = "SUCCESSFUL") :
    (monitorLoop env (fuel + 1) pollIdx elapsed job).1.status ∈
      complete_time_states ∧
    (monitorLoop env (fuel + 1) pollIdx elapsed job).1.complete_time =
      some env.now := by
  rcases hrd : env.resultData with _ | _ | files
  · have hval : monitorLoop env (fuel + 1) pollIdx elapsed job =
        ({ job with
            status := "no_results"
            complete_time := some env.now }, false) := by
      simp [monitorLoop, he, hp, hsS, hrd]
    rw [hval]
    simp [complete_time_states]
  · have hval : monitorLoop env (fuel + 1) pollIdx elapsed job =
        ({ job with
            status := "no_results"
            complete_time := some env.now }, false) := by
      simp [monitorLoop, he, hp, hsS, hrd]
    rw [hval]
    simp [complete_time_states]
  · by_cases hdl : (attemptDownloads env.downloadOk files
        { job with
          status := "completed"
          complete_time := some env.now } download_candidates).2 = true
    · obtain ⟨p, hp2⟩ := attemptDownloads_of_true _ _ _ _ hdl
      have hval : monitorLoop env (fuel + 1) pollIdx elapsed job =
          ({ job with
              status := "completed"
              complete_time := some env.now
              result_path := some p }, true) := by
        simp [monitorLoop, he, hp, hsS, hrd, hdl, hp2]
      rw [hval]
      simp [complete_time_states]
    · have h2 : (attemptDownloads env.downloadOk files
          { job with
            status := "completed"
            complete_time := some env.now } download_candidates).2 = false := by
        simpa using hdl
      have h1 := attemptDownloads_of_false _ _ _ _ h2
      have hval : monitorLoop env (fuel + 1) pollIdx elapsed job =
          ({ job with
              status := "download_failed"
              complete_time := some env.now }, false) := by
        simp [monitorLoop, he, hp, hsS, hrd, h2, h1]
      rw [hval]
      simp [complete_time_states]

/-- For a record with truthy credentials, a monitoring run whose first n
polls are non-terminal and in budget reaches its (n+1)st poll with the
record untouched, the remaining fuel still exceeding what the guard can
consume. -/
theorem monitor_job_reaches (env : MonitorEnv) (job : BaktaJob) (n : Nat)
    (hc1 : strTruthy job.job_id = true) (hc2 : strTruthy job.secret = true)
    (hn : n < max_wait_time / check_interval)
    (hpref : ∀ m, m < n → nonTerminalPoll env m) :
    monitor_job env job =
      monitorLoop env ((max_wait_time / check_interval - n) + 1) n
        (n * check_interval) job := by
  have hg2 : (!strTruthy job.job_id || !strTruthy job.secret) = false := by
    simp [hc1, hc2]
  have hmj : monitor_job env job =
      monitorLoop env (max_wait_time / check_interval + 1) 0 0 job := by
    simp [monitor_job, hg2]
  rw [hmj]
  have e : max_wait_time / check_interval + 1 =
      ((max_wait_time / check_interval - n) + 1) + n := by
    simp only [max_wait_time, check_interval] at hn ⊢
    omega
  rw [e]
  rw [monitorLoop_skip_nonterminal env job n
    ((max_wait_time / check_interval - n) + 1) 0 0
    (by simpa using hpref)
    (fun m hm => by
      simp only [max_wait_time, check_interval] at hn ⊢
      omega)]
  simp

/-
Claim theorems.
-/

/-- C10: monitoring a Job Record whose remote job identifier or secret
is absent returns failure immediately, independent of every remote
outcome (the environment is arbitrary, so no remote call is consulted)
and without mutating any field of the record. -/
theorem C10_monitor_missing_credentials (env : MonitorEnv) (job : BaktaJob)
    (h : job.job_id = none ∨ job.secret = none) :
    monitor_job env job = (job, false) := by
  rcases h with h | h <;> simp [monitor_job, h, strTruthy]

/-- C10 witness: a record with neither identifier nor secret is returned
unchanged with a failure indicator, even against an environment whose
polls would answer. -/
theorem C10_witness : monitor_job envForeverRunning jobNoCreds =
    (jobNoCreds, false) :=
  C10_monitor_missing_credentials envForeverRunning jobNoCreds (Or.inl rfl)

/-- C7: at the failing input (a status query answering ERROR with no
error detail), the record is marked `failed` within one poll cycle and
monitoring returns failure, but `error_message` is left as Python None
rather than the string "Unknown error": the dict built by
get_job_status always contains the `error` key, so the written default
of `status_data.get('error', 'Unknown error')` in monitor_job is
unreachable.  When the remote does supply a detail it is recorded. -/
theorem C7_error_detail_none_not_unknown :
    (monitor_job envRemoteErrorNoDetail jobRunning).1.status = "failed" ∧
    (monitor_job envRemoteErrorNoDetail jobRunning).1.error_message = none ∧
    (monitor_job envRemoteErrorNoDetail jobRunning).2 = false ∧
    (monitor_job envRemoteError jobRunning).1.error_message = some "boom" := by
  refine ⟨by decide, by decide, by decide, by decide⟩

/-- C1 counterexample: a monitoring run whose first status query fails
at the transport level returns failure but leaves the Job Record in its
prior state `running`, which is not a terminal state — contradicting the
claim that every exit path leaves the record terminal. -/
theorem C1_counterexample :
    monitor_job envTransportFail jobRunning = (jobRunning, false) ∧
    jobRunning.status = "running" ∧
    "running" ∉ terminal_states := by
  refine ⟨by decide, rfl, by decide⟩

/-- C1 amended: every exit path of monitoring returns a boolean and
leaves the record either in a terminal state or entirely unchanged,
conditioned on the exit path: the missing-credential guard and a failed
or missing status query (after any run of non-terminal in-budget polls)
return failure with the record untouched, so it can remain `running`; a
first decisive poll answering ERROR ends in terminal state `failed`
carrying the remote detail; one answering SUCCESSFUL ends in one of the
terminal states `completed`, `download_failed`, `no_results` with the
completion instant set; exhausting the budget over non-terminal polls
ends in terminal state `timeout`; and a success return implies state
`completed`. -/
theorem C1_monitor_exit_paths (env : MonitorEnv) (job : BaktaJob) :
    ((monitor_job env job).1.status ∈ terminal_states ∨
      (monitor_job env job).1 = job) ∧
    ((monitor_job env job).2 = true →
      (monitor_job env job).1.status = "completed") ∧
    ((strTruthy job.job_id = false ∨ strTruthy job.secret = false) →
      monitor_job env job = (job, false)) ∧
    (∀ n, n < max_wait_time / check_interval →
      (∀ m, m < n → nonTerminalPoll env m) →
      pollStatus env n = none →
      monitor_job env job = (job, false)) ∧
    (∀ n sd, strTruthy job.job_id = true → strTruthy job.secret = true →
      n < max_wait_time / check_interval →
      (∀ m, m < n → nonTerminalPoll env m) →
      pollStatus env n = some sd → statusGetStatus sd = "ERROR" →
      monitor_job env job =
        ({ job with
            status := "failed"
            error_message := statusGetError sd }, false)) ∧
    (∀ n sd, strTruthy job.job_id = true → strTruthy job.secret = true →
      n < max_wait_time / check_interval →
      (∀ m, m < n → nonTerminalPoll env m) →
      pollStatus env n = some sd → statusGetStatus sd = "SUCCESSFUL" →
      (monitor_job env job).1.status ∈ complete_time_states ∧
      (monitor_job env job).1.complete_time = some env.now) ∧
    (strTruthy job.job_id = true → strTruthy job.secret = true →
      (∀ n, n < max_wait_time / check_interval → nonTerminalPoll env n) →
      monitor_job env job = ({ job with status := "timeout" }, false)) := by
  have hterm : (monitor_job env job).1.status ∈ terminal_states ∨
      (monitor_job env job).1 = job := by
    by_cases hguard : (!strTruthy job.job_id || !strTruthy job.secret) = true
    · have h : monitor_job env job = (job, false) := by
        simp [monitor_job, hguard]
      rw [h]
      exact Or.inr rfl
    · have hg2 : (!strTruthy job.job_id || !strTruthy job.secret) = false := by
        simpa using hguard
      have h : monitor_job env job =
          monitorLoop env (max_wait_time / check_interval + 1) 0 0 job := by
        simp [monitor_job, hg2]
      rw [h]
      rcases monitorLoop_result_cases env (max_wait_time / check_interval + 1)
          0 0 job with hc | hc | ⟨e, hc⟩ | ⟨p, hc⟩ | hc | hc <;>
        rw [hc] <;> simp [terminal_states]
  have hsuccb : (monitor_job env job).2 = true →
      (monitor_job env job).1.status = "completed" := by
    by_cases hguard : (!strTruthy job.job_id || !strTruthy job.secret) = true
    · have h : monitor_job env job = (job, false) := by
        simp [monitor_job, hguard]
      rw [h]
      simp
    · have hg2 : (!strTruthy job.job_id || !strTruthy job.secret) = false := by
        simpa using hguard
      have h : monitor_job env job =
          monitorLoop env (max_wait_time / check_interval + 1) 0 0 job := by
        simp [monitor_job, hg2]
      rw [h]
      rcases monitorLoop_result_cases env (max_wait_time / check_interval + 1)
          0 0 job with hc | hc | ⟨e, hc⟩ | ⟨p, hc⟩ | hc | hc <;>
        rw [hc] <;> simp
  refine ⟨hterm, hsuccb, ?_, ?_, ?_, ?_, ?_⟩
  · intro hfalsy
    rcases hfalsy with hf | hf <;> simp [monitor_job, hf]
  · intro n hn hpref hp
    by_cases hc1 : strTruthy job.job_id = true
    · by_cases hc2 : strTruthy job.secret = true
      · rw [monitor_job_reaches env job n hc1 hc2 hn hpref]
        exact monitorLoop_step_none env job _ n _
          (by
            simp only [max_wait_time, check_interval] at hn ⊢
            omega) hp
      · have hf : strTruthy job.secret = false := by simpa using hc2
        simp [monitor_job, hf]
    · have hf : strTruthy job.job_id = false := by simpa using hc1
      simp [monitor_job, hf]
  · intro n sd hc1 hc2 hn hpref hp hsE
    rw [monitor_job_reaches env job n hc1 hc2 hn hpref]
    exact monitorLoop_step_error env job _ n _ sd
      (by
        simp only [max_wait_time, check_interval] at hn ⊢
        omega) hp hsE
  · intro n sd hc1 hc2 hn hpref hp hsS
    rw [monitor_job_reaches env job n hc1 hc2 hn hpref]
    exact monitorLoop_step_successful env job _ n _ sd
      (by
        simp only [max_wait_time, check_interval] at hn ⊢
        omega) hp hsS
  · intro hc1 hc2 h3
    have hg2 : (!strTruthy job.job_id || !strTruthy job.secret) = false := by
      simp [hc1, hc2]
    have hmj : monitor_job env job =
        monitorLoop env (max_wait_time / check_interval + 1) 0 0 job := by
      simp [monitor_job, hg2]
    rw [hmj]
    apply monitorLoop_timeout
    intro k hk hlt
    have hk120 : k < max_wait_time / check_interval := by
      simp only [max_wait_time, check_interval] at hlt ⊢
      omega
    simpa using h3 k hk120

/-- C1 witness: the exit-path theorem applied at concrete runs — a
successful-download run returns success in state `completed`, a run
whose first status query fails returns failure with the record
unchanged, and a run whose first poll answers ERROR ends failed with
the remote detail. -/
theorem C1_witness :
    (monitor_job envSuccessJsonGz jobRunning).1.status = "completed" ∧
    monitor_job envTransportFail jobRunning = (jobRunning, false) ∧
    monitor_job envRemoteError jobRunning =
      ({ jobRunning with
          status := "failed"
          error_message := some "boom" }, false) :=
  ⟨(C1_monitor_exit_paths envSuccessJsonGz jobRunning).2.1 (by decide),
   (C1_monitor_exit_paths envTransportFail jobRunning).2.2.2.1 0
     (by decide) (fun m hm => absurd hm (Nat.not_lt_zero m)) rfl,
   (C1_monitor_exit_paths envRemoteError jobRunning).2.2.2.2.1 0
     { statusEntry := some "ERROR", errorEntry := some (some "boom") }
     (by decide) (by decide) (by decide)
     (fun m hm => absurd hm (Nat.not_lt_zero m)) rfl (by decide)⟩

/-- C2 counterexample: a job that ends in state `failed` through the
remote ERROR branch has no completion timestamp, contradicting the claim
that `failed` after a known remote error is a timestamp-bearing
transition. -/
theorem C2_counterexample :
    (monitor_job envRemoteError jobRunning).1.status = "failed" ∧
    (monitor_job envRemoteError jobRunning).1.complete_time = none := by
  refine ⟨by decide, by decide⟩

/-- C2 amended: for a record that enters monitoring in state `running`
with no completion timestamp, `complete_time` is set afterwards exactly
when the record ends in one of the SUCCESSFUL-branch states
`completed`, `download_failed`, `no_results`; the states `failed` and
`timeout` (and the unchanged transport-failure exit) carry no completion
timestamp. -/
theorem C2_complete_time_iff (env : MonitorEnv) (job : BaktaJob)
    (h1 : job.status = "running") (h2 : job.complete_time = none) :
    ((monitor_job env job).1.complete_time.isSome = true ↔
      (monitor_job env job).1.status ∈ complete_time_states) := by
  by_cases hguard : (!strTruthy job.job_id || !strTruthy job.secret) = true
  · have h : monitor_job env job = (job, false) := by
      simp [monitor_job, hguard]
    rw [h]
    simp [h1, h2, complete_time_states]
  · have hg2 : (!strTruthy job.job_id || !strTruthy job.secret) = false := by
      simpa using hguard
    have h : monitor_job env job =
        monitorLoop env (max_wait_time / check_interval + 1) 0 0 job := by
      simp [monitor_job, hg2]
    rw [h]
    rcases monitorLoop_result_cases env (max_wait_time / check_interval + 1)
        0 0 job with hc | hc | ⟨e, hc⟩ | ⟨p, hc⟩ | hc | hc <;>
      rw [hc] <;> simp [h1, h2, complete_time_states]

/-- C2 witness: a successfully downloading run sets the completion
timestamp together with the terminal state `completed`. -/
theorem C2_witness :
    ((monitor_job envSuccessJsonGz jobRunning).1.complete_time.isSome = true ↔
      (monitor_job envSuccessJsonGz jobRunning).1.status ∈
        complete_time_states) :=
  C2_complete_time_iff envSuccessJsonGz jobRunning rfl rfl

/-- C3 counterexample: a submission whose initialization succeeded and
whose FASTA upload then failed returns a record in state `failed` whose
`submit_time` is nevertheless set — contradicting the claim that a
submission failing at the upload step leaves `submit_time` unset. -/
theorem C3_counterexample :
    submit_job envSubmitUploadFail "f1" paramsGood =
      Except.ok jobUploadFailed ∧
    jobUploadFailed.status = "failed" ∧
    jobUploadFailed.submit_time ≠ none := by
  refine ⟨by rfl, rfl, by decide⟩

/-- C3 amended: `submit_time` is assigned exactly when the
initialization step succeeds (immediately after it, before the upload
and start steps), so a submission that fails at upload or start still
carries `submit_time`; it is unset only when initialization fails.  A
record that reaches state `running` carries the submission instant. -/
theorem C3_submit_time_at_init (env : SubmitEnv) (file_id : String)
    (params : ParamsDict) (fp : String) (h : params.fasta_file = some fp) :
    ∃ j, submit_job env file_id params = Except.ok j ∧
      (j.submit_time.isSome = true ↔
        strTruthy (init_job env.initResponse).1 = true) ∧
      (j.status = "running" → j.submit_time = some env.now) := by
  rcases hinit : init_job env.initResponse with ⟨job_id, secret, upload_links⟩
  by_cases hjid : strTruthy job_id = true
  · cases upload_links with
    | none =>
      have hEq : submit_job env file_id params = Except.ok
          { file_id := file_id, fasta_path := fp, job_id := job_id,
            secret := secret, status := "failed",
            submit_time := some env.now,
            error_message := some "NoneType object is not subscriptable" } := by
        simp [submit_job, h, hinit, hjid]
      refine ⟨_, hEq, by simp [hinit, hjid], ?_⟩
      intro hrun
      have hx : ("failed" : String) = "running" := hrun
      exact absurd hx (by decide)
    | some links =>
      by_cases hup : env.uploadResult links.fasta fp = true
      · by_cases hst : env.startResult
            { genus := params.genus.getD "",
              species := params.species.getD "",
              strain := params.strain.getD "",
              complete_genome := params.circular.getD false,
              locus_tag := _generate_locus_tag (params.genus.getD "")
                (params.species.getD "") file_id,
              locus := mk_locus (_generate_locus_tag (params.genus.getD "")
                (params.species.getD "") file_id) (job_id.getD "") } = true
        · have hEq : submit_job env file_id params = Except.ok
              { file_id := file_id, fasta_path := fp, job_id := job_id,
                secret := secret, status := "running",
                submit_time := some env.now } := by
            simp [submit_job, h, hinit, hjid, hup, hst]
          refine ⟨_, hEq, by simp [hinit, hjid], ?_⟩
          intro _
          rfl
        · have hEq : submit_job env file_id params = Except.ok
              { file_id := file_id, fasta_path := fp, job_id := job_id,
                secret := secret, status := "failed",
                submit_time := some env.now,
                error_message := some "Job start failed" } := by
            simp [submit_job, h, hinit, hjid, hup, hst]
          refine ⟨_, hEq, by simp [hinit, hjid], ?_⟩
          intro hrun
          have hx : ("failed" : String) = "running" := hrun
          exact absurd hx (by decide)
      · have hEq : submit_job env file_id params = Except.ok
            { file_id := file_id, fasta_path := fp, job_id := job_id,
              secret := secret, status := "failed",
              submit_time := some env.now,
              error_message := some "FASTA upload failed" } := by
          simp [submit_job, h, hinit, hjid, hup]
        refine ⟨_, hEq, by simp [hinit, hjid], ?_⟩
        intro hrun
        have hx : ("failed" : String) = "running" := hrun
        exact absurd hx (by decide)
  · have hEq : submit_job env file_id params = Except.ok
        { file_id := file_id, fasta_path := fp, status := "failed",
          error_message := some "Job initialization failed" } := by
      simp [submit_job, h, hinit, hjid]
    refine ⟨_, hEq, by simp [hinit, hjid], ?_⟩
    intro hrun
    have hx : ("failed" : String) = "running" := hrun
    exact absurd hx (by decide)

/-- C3 witness: at a concrete upload-failing environment the returned
record satisfies the amended invariant. -/
theorem C3_witness :
    ∃ j, submit_job envSubmitUploadFail "f1" paramsGood = Except.ok j ∧
      (j.submit_time.isSome = true ↔
        strTruthy (init_job envSubmitUploadFail.initResponse).1 = true) ∧
      (j.status = "running" → j.submit_time = some envSubmitUploadFail.now) :=
  C3_submit_time_at_init envSubmitUploadFail "f1" paramsGood "f1.fasta" rfl

/-- C4 counterexample: with genus "E" and species "co" (both non-empty
but too short) the derivation returns the truncated upper-cased
concatenation "ECO", not the tag derived from the file identifier
("MYFIL" for file identifier "myfile1") that the claim prescribes. -/
theorem C4_counterexample :
    _generate_locus_tag "E" "co" "myfile1" = "ECO" ∧
    strTake (cleanFileId "myfile1") 5 = "MYFIL" ∧
    ("ECO" : String) ≠ "MYFIL" := by
  refine ⟨by decide, by decide, by decide⟩

/-- C4 amended: when genus and species are both non-empty but too short
(genus shorter than 2 or species shorter than 3), the derived tag is the
upper-cased concatenation of genus and species truncated to five
characters — the file-identifier fallback applies only when genus or
species is empty; the derivation is a total function, so it never
throws.  When both are long enough the tag is the first two letters of
genus plus the first three of species, upper-cased; concretely
Escherichia coli gives tag "ESCOL" and, with remote identifier
"abcdefgh1234", locus "ESCOL_abcdefgh". -/
theorem C4_locus_tag_derivation :
    (∀ genus species file_id : String, genus ≠ "" → species ≠ "" →
      (strLen genus < 2 ∨ strLen species < 3) →
      _generate_locus_tag genus species file_id =
        strTake (strUpper genus ++ strUpper species) 5) ∧
    (∀ genus species file_id : String,
      2 ≤ strLen genus → 3 ≤ strLen species →
      _generate_locus_tag genus species file_id =
        strUpper (strTake genus 2) ++ strUpper (strTake species 3)) ∧
    _generate_locus_tag "Escherichia" "coli" "anyfile" = "ESCOL" ∧
    mk_locus "ESCOL" "abcdefgh1234" = "ESCOL_abcdefgh" := by
  refine ⟨?_, ?_, by decide, by decide⟩
  · intro genus species file_id hg hs hshort
    rw [_generate_locus_tag, if_pos ⟨hg, hs⟩, if_neg (by omega)]
  · intro genus species file_id hg2 hs3
    have hg : genus ≠ "" := by
      intro hh
      rw [hh] at hg2
      exact absurd hg2 (by decide)
    have hs : species ≠ "" := by
      intro hh
      rw [hh] at hs3
      exact absurd hs3 (by decide)
    rw [_generate_locus_tag, if_pos ⟨hg, hs⟩, if_pos ⟨hg2, hs3⟩]

/-- C4 witness: the amended short-input rule applied at genus "E",
species "co", file identifier "zz9". -/
theorem C4_witness :
    _generate_locus_tag "E" "co" "zz9" =
      strTake (strUpper "E" ++ strUpper "co") 5 :=
  C4_locus_tag_derivation.1 "E" "co" "zz9" (by decide) (by decide)
    (by decide)

/-- C6 counterexample: a parameter entry missing the `fasta_file` key
makes the submission procedure raise to its caller (the record is built
from the bracket lookup before the protecting handler), contradicting
the claim that it never propagates an exception even for malformed
entries. -/
theorem C6_counterexample :
    submit_job envSubmitOk "f1" paramsNoFasta =
      Except.error "KeyError: fasta_file" := rfl

/-- C6 amended: once the parameter entry does contain the fasta path,
the submission procedure propagates no exception: it always returns a
well-formed record whose state is `running` or `failed`, and a `failed`
record carries an error message. -/
theorem C6_no_throw_with_fasta (env : SubmitEnv) (file_id : String)
    (params : ParamsDict) (fp : String) (h : params.fasta_file = some fp) :
    ∃ j, submit_job env file_id params = Except.ok j ∧
      (j.status = "running" ∨ j.status = "failed") ∧
      (j.status = "failed" → j.error_message.isSome = true) := by
  rcases hinit : init_job env.initResponse with ⟨job_id, secret, upload_links⟩
  by_cases hjid : strTruthy job_id = true
  · cases upload_links with
    | none =>
      have hEq : submit_job env file_id params = Except.ok
          { file_id := file_id, fasta_path := fp, job_id := job_id,
            secret := secret, status := "failed",
            submit_time := some env.now,
            error_message := some "NoneType object is not subscriptable" } := by
        simp [submit_job, h, hinit, hjid]
      exact ⟨_, hEq, Or.inr rfl, fun _ => rfl⟩
    | some links =>
      by_cases hup : env.uploadResult links.fasta fp = true
      · by_cases hst : env.startResult
            { genus := params.genus.getD "",
              species := params.species.getD "",
              strain := params.strain.getD "",
              complete_genome := params.circular.getD false,
              locus_tag := _generate_locus_tag (params.genus.getD "")
                (params.species.getD "") file_id,
              locus := mk_locus (_generate_locus_tag (params.genus.getD "")
                (params.species.getD "") file_id) (job_id.getD "") } = true
        · have hEq : submit_job env file_id params = Except.ok
              { file_id := file_id, fasta_path := fp, job_id := job_id,
                secret := secret, status := "running",
                submit_time := some env.now } := by
            simp [submit_job, h, hinit, hjid, hup, hst]
          refine ⟨_, hEq, Or.inl rfl, ?_⟩
          intro hfail
          have hx : ("running" : String) = "failed" := hfail
          exact absurd hx (by decide)
        · have hEq : submit_job env file_id params = Except.ok
              { file_id := file_id, fasta_path := fp, job_id := job_id,
                secret := secret, status := "failed",
                submit_time := some env.now,
                error_message := some "Job start failed" } := by
            simp [submit_job, h, hinit, hjid, hup, hst]
          exact ⟨_, hEq, Or.inr rfl, fun _ => rfl⟩
      · have hEq : submit_job env file_id params = Except.ok
            { file_id := file_id, fasta_path := fp, job_id := job_id,
              secret := secret, status := "failed",
              submit_time := some env.now,
              error_message := some "FASTA upload failed" } := by
          simp [submit_job, h, hinit, hjid, hup]
        exact ⟨_, hEq, Or.inr rfl, fun _ => rfl⟩
  · have hEq : submit_job env file_id params = Except.ok
        { file_id := file_id, fasta_path := fp, status := "failed",
          error_message := some "Job initialization failed" } := by
      simp [submit_job, h, hinit, hjid]
    exact ⟨_, hEq, Or.inr rfl, fun _ => rfl⟩

/-- C6 witness: the amended guarantee applied at a concrete well-formed
entry with every remote step succeeding. -/
theorem C6_witness :
    ∃ j, submit_job envSubmitOk "f1" paramsGood = Except.ok j ∧
      (j.status = "running" ∨ j.status = "failed") ∧
      (j.status = "failed" → j.error_message.isSome = true) :=
  C6_no_throw_with_fasta envSubmitOk "f1" paramsGood "f1.fasta" rfl

/-- C5 counterexample: a SUCCESSFUL job whose manifest is present but
lists no matching result kind (only "GFF3") ends in state
`download_failed`, not the state `no_results` the claim prescribes for a
manifest lacking any matching kind. -/
theorem C5_counterexample :
    (monitor_job envSuccessNoMatchingKind jobRunning).1.status =
      "download_failed" ∧
    envSuccessNoMatchingKind.resultData =
      some (some [("GFF3", "urlGff")]) ∧
    ([("GFF3", "urlGff")] : List (String × String)).lookup "JSON" = none ∧
    ([("GFF3", "urlGff")] : List (String × String)).lookup "JSONGZ" =
      none ∧
    ("download_failed" : String) ≠ "no_results" := by
  refine ⟨by decide, rfl, by decide, by decide, by decide⟩

/-- C5 amended: after a first poll answering SUCCESSFUL, the final state
is `no_results` exactly when the manifest call failed or its response
lacks a usable ResultFiles entry; it is `download_failed` exactly when
ResultFiles is present but no candidate kind downloads (including when
no matching kind is listed at all); and when some candidate kind is
present with a succeeding download the state is `completed` with
`result_path` set and monitoring returns success.  The completion
timestamp is set in every one of these outcomes. -/
theorem C5_successful_branch (env : MonitorEnv) (job : BaktaJob)
    (sd : StatusData)
    (h1 : strTruthy job.job_id = true) (h2 : strTruthy job.secret = true)
    (h3 : pollStatus env 0 = some sd)
    (h4 : statusGetStatus sd = "SUCCESSFUL") :
    match env.resultData with
    | some (some result_files) =>
      if anyCandidateDownloads env.downloadOk result_files
          download_candidates then
        (monitor_job env job).1.status = "completed" ∧
        (monitor_job env job).1.result_path.isSome = true ∧
        (monitor_job env job).1.complete_time = some env.now ∧
        (monitor_job env job).2 = true
      else
        (monitor_job env job).1.status = "download_failed" ∧
        (monitor_job env job).1.complete_time = some env.now ∧
        (monitor_job env job).2 = false
    | _ =>
      (monitor_job env job).1.status = "no_results" ∧
      (monitor_job env job).1.complete_time = some env.now ∧
      (monitor_job env job).2 = false := by
  have hg2 : (!strTruthy job.job_id || !strTruthy job.secret) = false := by
    simp [h1, h2]
  have hmj : monitor_job env job =
      monitorLoop env (max_wait_time / check_interval + 1) 0 0 job := by
    simp [monitor_job, hg2]
  have hfuel : max_wait_time / check_interval + 1 = 120 + 1 := rfl
  rw [hfuel] at hmj
  rcases hrd : env.resultData with _ | _ | files
  · have hval : monitor_job env job =
        ({ job with
            status := "no_results"
            complete_time := some env.now }, false) := by
      rw [hmj]
      simp [monitorLoop, h3, h4, hrd, max_wait_time]
    show (monitor_job env job).1.status = "no_results" ∧
      (monitor_job env job).1.complete_time = some env.now ∧
      (monitor_job env job).2 = false
    rw [hval]
    simp
  · have hval : monitor_job env job =
        ({ job with
            status := "no_results"
            complete_time := some env.now }, false) := by
      rw [hmj]
      simp [monitorLoop, h3, h4, hrd, max_wait_time]
    show (monitor_job env job).1.status = "no_results" ∧
      (monitor_job env job).1.complete_time = some env.now ∧
      (monitor_job env job).2 = false
    rw [hval]
    simp
  · show (if anyCandidateDownloads env.downloadOk files
        download_candidates then
        (monitor_job env job).1.status = "completed" ∧
        (monitor_job env job).1.result_path.isSome = true ∧
        (monitor_job env job).1.complete_time = some env.now ∧
        (monitor_job env job).2 = true
      else
        (monitor_job env job).1.status = "download_failed" ∧
        (monitor_job env job).1.complete_time = some env.now ∧
        (monitor_job env job).2 = false)
    by_cases hdl : anyCandidateDownloads env.downloadOk files
        download_candidates = true
    · have hsnd : (attemptDownloads env.downloadOk files
          { job with
            status := "completed"
            complete_time := some env.now } download_candidates).2 = true := by
        rw [attemptDownloads_snd]
        exact hdl
      obtain ⟨p, hp⟩ := attemptDownloads_of_true _ _ _ _ hsnd
      have hval : monitor_job env job =
          ({ job with
              status := "completed"
              complete_time := some env.now
              result_path := some p }, true) := by
        rw [hmj]
        simp [monitorLoop, h3, h4, hrd, hsnd, hp, max_wait_time]
      rw [if_pos hdl, hval]
      simp
    · have hsnd : (attemptDownloads env.downloadOk files
          { job with
            status := "completed"
            complete_time := some env.now } download_candidates).2 = false := by
        rw [attemptDownloads_snd]
        simpa using hdl
      have hfst := attemptDownloads_of_false _ _ _ _ hsnd
      have hval : monitor_job env job =
          ({ job with
              status := "download_failed"
              complete_time := some env.now }, false) := by
        rw [hmj]
        simp [monitorLoop, h3, h4, hrd, hsnd, hfst, max_wait_time]
      rw [if_neg hdl, hval]
      simp

/-- C5 witness: a manifest listing only the compressed JSONGZ kind with
a succeeding download ends completed with a result path (the
fallback-order property of the specification). -/
theorem C5_witness :
    (monitor_job envSuccessJsonGz jobRunning).1.status = "completed" ∧
    (monitor_job envSuccessJsonGz jobRunning).1.result_path.isSome = true ∧
    (monitor_job envSuccessJsonGz jobRunning).1.complete_time =
      some envSuccessJsonGz.now ∧
    (monitor_job envSuccessJsonGz jobRunning).2 = true := by
  have h := C5_successful_branch envSuccessJsonGz jobRunning
    { statusEntry := some "SUCCESSFUL", errorEntry := some none }
    (by decide) (by decide) rfl (by decide)
  simpa [envSuccessJsonGz, anyCandidateDownloads, download_candidates]
    using h

/-- C8: when the remote keeps answering an in-progress or unknown state
on every poll that fits under the wall-clock budget (3600 seconds at
30-second intervals, hence 120 polls), monitoring exits with the record
in state `timeout` and returns failure; no poll beyond the budget is
consulted, since the hypothesis constrains only the in-budget polls. -/
theorem C8_timeout_on_persistent_nonterminal (env : MonitorEnv)
    (job : BaktaJob)
    (h1 : strTruthy job.job_id = true) (h2 : strTruthy job.secret = true)
    (h3 : ∀ n, n < max_wait_time / check_interval → nonTerminalPoll env n) :
    monitor_job env job = ({ job with status := "timeout" }, false) ∧
    max_wait_time = 3600 ∧ check_interval = 30 := by
  refine ⟨?_, rfl, rfl⟩
  have hg2 : (!strTruthy job.job_id || !strTruthy job.secret) = false := by
    simp [h1, h2]
  have hmj : monitor_job env job =
      monitorLoop env (max_wait_time / check_interval + 1) 0 0 job := by
    simp [monitor_job, hg2]
  rw [hmj]
  apply monitorLoop_timeout
  intro k hk hlt
  have hk120 : k < max_wait_time / check_interval := by
    simp only [max_wait_time, check_interval] at hlt ⊢
    omega
  simpa using h3 k hk120

/-- C8 witness: a job whose status query forever answers RUNNING times
out with a failure return. -/
theorem C8_witness :
    monitor_job envForeverRunning jobRunning =
      ({ jobRunning with status := "timeout" }, false) :=
  (C8_timeout_on_persistent_nonterminal envForeverRunning jobRunning
    (by decide) (by decide)
    (fun n _ =>
      ⟨{ statusEntry := some "RUNNING", errorEntry := some none },
        rfl, by decide, by decide⟩)).1

/-- C9: the report's successful bucket is exactly the records in state
`completed`; its failed bucket is exactly the records whose state is
`failed`, `timeout` or `download_failed`; a record in `no_results`, or
in any state outside these four, lands in neither bucket; and the
reported duration of a job carrying both timestamps is
`complete_time - submit_time` expressed in minutes. -/
theorem C9_report_partition (jobs : List BaktaJob) :
    (∀ j, j ∈ successful_jobs jobs ↔ j ∈ jobs ∧ j.status = "completed") ∧
    (∀ j, j ∈ failed_jobs jobs ↔ j ∈ jobs ∧
      (j.status = "failed" ∨ j.status = "timeout" ∨
        j.status = "download_failed")) ∧
    (∀ j, j.status = "no_results" →
      j ∉ successful_jobs jobs ∧ j ∉ failed_jobs jobs) ∧
    (∀ j, j.status ∉ "completed" :: failed_states →
      j ∉ successful_jobs jobs ∧ j ∉ failed_jobs jobs) ∧
    (∀ j : BaktaJob, ∀ c s : Nat, j.complete_time = some c →
      j.submit_time = some s →
      reportDurationMinutes j = some (((c : ℚ) - (s : ℚ)) / 60)) := by
  have hsucc : ∀ j, j ∈ successful_jobs jobs ↔
      j ∈ jobs ∧ j.status = "completed" := by
    intro j
    simp [successful_jobs, List.mem_filter]
  have hfail : ∀ j, j ∈ failed_jobs jobs ↔ j ∈ jobs ∧
      (j.status = "failed" ∨ j.status = "timeout" ∨
        j.status = "download_failed") := by
    intro j
    simp [failed_jobs, List.mem_filter, failed_states, List.contains]
  refine ⟨hsucc, hfail, ?_, ?_, ?_⟩
  · intro j hnr
    refine ⟨fun hmem => ?_, fun hmem => ?_⟩
    · have hx := ((hsucc j).1 hmem).2
      rw [hnr] at hx
      exact absurd hx (by decide)
    · have hx := ((hfail j).1 hmem).2
      rw [hnr] at hx
      rcases hx with hx | hx | hx <;> exact absurd hx (by decide)
  · intro j hnot
    refine ⟨fun hmem => ?_, fun hmem => ?_⟩
    · have hx := ((hsucc j).1 hmem).2
      exact hnot (by rw [hx]; decide)
    · have hx := ((hfail j).1 hmem).2
      rcases hx with hx | hx | hx <;> exact hnot (by rw [hx]; decide)
  · intro j c s hc hs
    simp [reportDurationMinutes, hc, hs]

/-- C9 witness: in a concrete two-record collection, the `no_results`
record lands in neither bucket, and the completed record's duration is
five minutes. -/
theorem C9_witness :
    (jobNoResultsRec ∉ successful_jobs [jobCompletedRec, jobNoResultsRec] ∧
      jobNoResultsRec ∉ failed_jobs [jobCompletedRec, jobNoResultsRec]) ∧
    reportDurationMinutes jobCompletedRec = some 5 := by
  constructor
  · exact (C9_report_partition [jobCompletedRec, jobNoResultsRec]).2.2.1
      jobNoResultsRec rfl
  · have h := (C9_report_partition []).2.2.2.2 jobCompletedRec 360 60 rfl rfl
    rw [h]
    norm_num
